import Mathlib

/-!
# ShopTrack admin panel — verification of the tenant-scoping and access logic

Shallow embedding of the entity services (`customerService.ts`,
`productService.ts`, `categoryService.ts`, `userService.ts`,
`tenantService.ts`), the profile resolution of `AuthContext.tsx`, and the
row-level-security policies of `database_roles_setup.sql` /
`super-admin-database-setup.sql`.

Conventions of the embedding:
* timestamps are `Nat` (only their ordering matters);
* SQL `NUMERIC` is `Rat`, SQL `INTEGER` is `Int`;
* JavaScript truthiness on optional arguments (`filters?.limit`,
  `x || default`) is modelled explicitly (`0` and `""` count as absent);
* SQL three-valued equality on nullable columns (`NULL = NULL` is not true)
  is modelled by `sqlEq`;
* the Supabase query builder's `.eq / .or(ilike) / .order / .limit / .range`
  chain is modelled as filter, sort, then offset/limit, which is how the
  store evaluates the accumulated modifiers;
* `.single()` is modelled as: one row → value, zero rows → `notFound`,
  several rows → `multipleRows`.
-/

namespace ShopTrack

/-- The `user_role` enum of `database_roles_setup.sql`. -/
inductive Role where
  | superAdmin
  | tenantAdmin
  | tenantUser
deriving DecidableEq, Repr

/-- A row of `user_profiles` (columns used by the services). -/
structure UserRow where
  id : String
  email : String
  role : Role
  tenant_id : Option String
  full_name : Option String
  status : String
  created_at : Nat
deriving DecidableEq, Repr

/-- A row of `tenants`. -/
structure TenantRow where
  id : String
  name : String
  address : Option String
  status : String
  subscription_plan : String
  max_users : Int
  created_by : Option String
  created_at : Nat
deriving DecidableEq, Repr

/-- A row of `customers`. -/
structure CustomerRow where
  id : Nat
  tenant_id : String
  name : String
  email : Option String
  phone : Option String
  address : Option String
  created_at : Nat
deriving DecidableEq, Repr

/-- A row of `products` (after `add-cost-field-migration.sql`,
`cost` is NOT NULL). -/
structure ProductRow where
  id : Nat
  tenant_id : String
  name : String
  price : Rat
  cost : Rat
  stock_quantity : Int
  category_id : Option Nat
  description : Option String
  created_at : Nat
deriving DecidableEq, Repr

/-- A row of `categories`. -/
structure CategoryRow where
  id : Nat
  tenant_id : String
  name : String
  description : Option String
  created_at : Nat
deriving DecidableEq, Repr

/-- The row store: the five entity tables. -/
structure DB where
  user_profiles : List UserRow
  tenants : List TenantRow
  customers : List CustomerRow
  products : List ProductRow
  categories : List CategoryRow
deriving DecidableEq, Repr

/-- Uniform error outcomes of the service layer (the TS services return
`{ data, error }` with distinct message strings; we keep the distinctions). -/
inductive SvcError where
  | notAuthenticated
  | noTenantAssigned
  | notFound
  | multipleRows
  | checkViolation
  | rlsViolation
  | categoryNotEmpty (count : Nat)
deriving DecidableEq, Repr

/-- JavaScript `a || b` on an optional string (empty string is falsy). -/
def jsOr (a : Option String) (b : String) : String :=
  match a with
  | some s => if s = "" then b else s
  | none => b

/-- JavaScript `a || b` on an optional integer (`0` is falsy). -/
def jsOrInt (a : Option Int) (b : Int) : Int :=
  match a with
  | some v => if v = 0 then b else v
  | none => b

/-- JavaScript truthiness on an optional `Nat` argument (`0` is falsy, so
`if (filters?.limit)` skips a zero limit). -/
def truthyNat : Option Nat → Option Nat
  | some 0 => none
  | o => o

/-- JavaScript `x || null` on an optional id (`0` is falsy). -/
def truthyId : Option Nat → Option Nat
  | some 0 => none
  | o => o

/-- JavaScript `s || null` / `s || undefined` on an optional string. -/
def truthyStr : Option String → Option String
  | some s => if s = "" then none else some s
  | none => none

/-- SQL equality on nullable columns: true only when both sides are
non-null and equal (`NULL = NULL` is not true). -/
def sqlEq (a b : Option String) : Bool :=
  match a, b with
  | some x, some y => x == y
  | _, _ => false

/-- Prefix test on character lists (helper for `ilike`). -/
def listIsPre : List Char → List Char → Bool
  | [], _ => true
  | _ :: _, [] => false
  | a :: as, b :: bs => a == b && listIsPre as bs

/-- Substring test on character lists (helper for `ilike`). -/
def listInfix (needle : List Char) : List Char → Bool
  | [] => listIsPre needle []
  | b :: bs => listIsPre needle (b :: bs) || listInfix needle bs

/-- PostgREST `column.ilike.%needle%`: case-insensitive substring match. -/
def ilikeContains (hay needle : String) : Bool :=
  listInfix needle.toLower.toList hay.toLower.toList

/-- `ilike` on a nullable column: a NULL column never matches. -/
def optIlike (hay : Option String) (needle : String) : Bool :=
  match hay with
  | some h => ilikeContains h needle
  | none => false

/-- List filter arguments shared by the `getAll*` operations. -/
structure ListFilters where
  search : Option String := none
  limit : Option Nat := none
  offset : Option Nat := none
deriving Repr

/-- `if (filters?.search) query.or(...)`: the search predicate is applied
only when a non-empty search string is given. -/
def searchArg {ρ : Type} (s : Option String) (p : String → ρ → Bool) : ρ → Bool :=
  match s with
  | some str => if str = "" then fun _ => true else p str
  | none => fun _ => true

/-- Sort rows by a `Nat` key, descending (`order(created_at, desc)`). -/
def sortByKeyDesc {ρ : Type} (key : ρ → Nat) (l : List ρ) : List ρ :=
  List.insertionSort (fun a b => key b ≤ key a) l

instance {ρ : Type} (key : ρ → Nat) : IsTotal ρ (fun a b => key b ≤ key a) :=
  ⟨fun a b => (Nat.le_total (key b) (key a)).imp id id⟩

instance {ρ : Type} (key : ρ → Nat) : IsTrans ρ (fun a b => key b ≤ key a) :=
  ⟨fun _ _ _ h1 h2 => Nat.le_trans h2 h1⟩

/-- `limit` / `range(offset, offset + (limit || 10) - 1)` as applied by the
store after ordering.  `range` fixes both offset and page size, overriding a
`limit` set earlier in the chain; with no offset, `limit` alone applies. -/
def paginate {ρ : Type} (lim off : Option Nat) (l : List ρ) : List ρ :=
  match truthyNat off with
  | some o => (l.drop o).take ((truthyNat lim).getD 10)
  | none =>
    match truthyNat lim with
    | some n => l.take n
    | none => l

/-- The full read pipeline of a tenant-scoped `getAll*`:
`eq(tenant_id, t)`, optional search, order by `created_at` descending,
pagination. -/
def tenantQuery {ρ : Type} (tenantOf : ρ → String) (createdOf : ρ → Nat)
    (t : String) (srch : ρ → Bool) (lim off : Option Nat)
    (rows : List ρ) : List ρ :=
  paginate lim off
    (sortByKeyDesc createdOf
      (rows.filter (fun r => decide (tenantOf r = t) && srch r)))

/-- `.single()` applied to a returned row set. -/
def singleOf {ρ : Type} : List ρ → Except SvcError ρ
  | [r] => .ok r
  | [] => .error .notFound
  | _ => .error .multipleRows

/-- `select().eq(id).eq(tenant_id).single()`. -/
def getByIdScoped {ρ : Type} (idOf : ρ → Nat) (tenantOf : ρ → String)
    (t : String) (id : Nat) (rows : List ρ) : Except SvcError ρ :=
  singleOf (rows.filter (fun r => decide (idOf r = id) && decide (tenantOf r = t)))

/-- `update(u).eq(id).eq(tenant_id).select().single()`: rewrite every
matching row with `g`, enforcing the table's check constraints `ck` on the
new rows (a violation aborts the whole statement). -/
def updateScoped {ρ : Type} (idOf : ρ → Nat) (tenantOf : ρ → String)
    (t : String) (id : Nat) (g : ρ → ρ) (ck : ρ → Bool)
    (rows : List ρ) : Except SvcError ρ × List ρ :=
  let hit := fun r => decide (idOf r = id) && decide (tenantOf r = t)
  let targets := rows.filter hit
  if targets.all (fun r => ck (g r)) then
    (singleOf (targets.map g), rows.map (fun r => if hit r then g r else r))
  else (.error .checkViolation, rows)

/-- `delete().eq(id).eq(tenant_id)`. -/
def deleteScoped {ρ : Type} (idOf : ρ → Nat) (tenantOf : ρ → String)
    (t : String) (id : Nat) (rows : List ρ) : List ρ :=
  rows.filter (fun r => !(decide (idOf r = id) && decide (tenantOf r = t)))

/-- `user_profiles` lookup by primary key. -/
def lookupProfile (db : DB) (uid : String) : Option UserRow :=
  db.user_profiles.find? (fun p => decide (p.id = uid))

/-- The caller-resolution prologue every tenant-scoped service operation
performs: `auth.getUser()` then read the caller's `tenant_id`; missing
session and missing/unassigned profile fail with the two distinct
messages of the TS code. -/
def resolveTenant (auth : Option String) (db : DB) : Except SvcError String :=
  match auth with
  | none => .error .notAuthenticated
  | some uid =>
    match lookupProfile db uid with
    | some p =>
      match p.tenant_id with
      | some t => .ok t
      | none => .error .noTenantAssigned
    | none => .error .noTenantAssigned

/-! ## CustomerService -/

/-- `CreateCustomerData`. -/
structure CreateCustomerData where
  name : String
  email : Option String := none
  phone : Option String := none
  address : Option String := none
deriving Repr

/-- `CustomerUpdate` (the `customers` Update type: every column optional). -/
structure CustomerUpdate where
  tenant_id : Option String := none
  name : Option String := none
  email : Option (Option String) := none
  phone : Option (Option String) := none
  address : Option (Option String) := none
deriving Repr

/-- Apply a `CustomerUpdate` payload to a row. -/
def applyCustomerUpdate (u : CustomerUpdate) (r : CustomerRow) : CustomerRow :=
  { r with
    tenant_id := u.tenant_id.getD r.tenant_id
    name := u.name.getD r.name
    email := u.email.getD r.email
    phone := u.phone.getD r.phone
    address := u.address.getD r.address }

/-- The search `or(name.ilike, email.ilike, phone.ilike)` of
`getAllCustomers`. -/
def customerSearch (s : String) (c : CustomerRow) : Bool :=
  ilikeContains c.name s || optIlike c.email s || optIlike c.phone s

/-- `CustomerService.getAllCustomers`. -/
def getAllCustomers (auth : Option String) (db : DB) (f : ListFilters) :
    Except SvcError (List CustomerRow) :=
  match resolveTenant auth db with
  | .error e => .error e
  | .ok t => .ok (tenantQuery (·.tenant_id) (·.created_at) t
      (searchArg f.search customerSearch) f.limit f.offset db.customers)

/-- `CustomerService.getCustomerById`. -/
def getCustomerById (auth : Option String) (db : DB) (id : Nat) :
    Except SvcError CustomerRow :=
  match resolveTenant auth db with
  | .error e => .error e
  | .ok t => getByIdScoped (·.id) (·.tenant_id) t id db.customers

/-- `CustomerService.createCustomer` (`newId`/`now` stand for the serial id
and insertion timestamp the store assigns). -/
def createCustomer (auth : Option String) (db : DB) (cd : CreateCustomerData)
    (newId : Nat) (now : Nat) : Except SvcError CustomerRow × DB :=
  match resolveTenant auth db with
  | .error e => (.error e, db)
  | .ok t =>
    let row : CustomerRow :=
      { id := newId, tenant_id := t, name := cd.name
        email := truthyStr cd.email, phone := truthyStr cd.phone
        address := truthyStr cd.address, created_at := now }
    (.ok row, { db with customers := db.customers ++ [row] })

/-- `CustomerService.updateCustomer`. -/
def updateCustomer (auth : Option String) (db : DB) (id : Nat)
    (u : CustomerUpdate) : Except SvcError CustomerRow × DB :=
  match resolveTenant auth db with
  | .error e => (.error e, db)
  | .ok t =>
    let p := updateScoped (·.id) (·.tenant_id) t id
      (applyCustomerUpdate u) (fun _ => true) db.customers
    (p.1, { db with customers := p.2 })

/-- `CustomerService.deleteCustomer`. -/
def deleteCustomer (auth : Option String) (db : DB) (id : Nat) :
    Except SvcError Unit × DB :=
  match resolveTenant auth db with
  | .error e => (.error e, db)
  | .ok t =>
    (.ok (), { db with customers := deleteScoped (·.id) (·.tenant_id) t id db.customers })

/-! ## ProductService -/

/-- `CreateProductData`. -/
structure CreateProductData where
  name : String
  price : Rat
  cost : Rat
  stock_quantity : Int
  category_id : Option Nat := none
  description : Option String := none
deriving Repr

/-- `ProductUpdate` (the `products` Update type: every column optional). -/
structure ProductUpdate where
  tenant_id : Option String := none
  name : Option String := none
  price : Option Rat := none
  cost : Option Rat := none
  stock_quantity : Option Int := none
  category_id : Option (Option Nat) := none
  description : Option (Option String) := none
deriving Repr

/-- Apply a `ProductUpdate` payload to a row. -/
def applyProductUpdate (u : ProductUpdate) (r : ProductRow) : ProductRow :=
  { r with
    tenant_id := u.tenant_id.getD r.tenant_id
    name := u.name.getD r.name
    price := u.price.getD r.price
    cost := u.cost.getD r.cost
    stock_quantity := u.stock_quantity.getD r.stock_quantity
    category_id := u.category_id.getD r.category_id
    description := u.description.getD r.description }

/-- The `check_cost_less_than_price` constraint of
`add-cost-field-migration.sql` (with `cost` NOT NULL).  The schema has no
check on `stock_quantity`. -/
def productCheck (r : ProductRow) : Bool :=
  decide (r.cost ≤ r.price)

/-- The search `or(name.ilike, description.ilike)` plus the optional
`eq(category_id)` and `lte(stock_quantity, 10)` filters of
`getAllProducts`. -/
def productSearch (s : String) (p : ProductRow) : Bool :=
  ilikeContains p.name s || optIlike p.description s

/-- Extra `getAllProducts` filters. -/
structure ProductFilters extends ListFilters where
  category_id : Option Nat := none
  low_stock : Bool := false
deriving Repr

/-- The combined row filter of `getAllProducts`: search `or(name.ilike,
description.ilike)`, optional `eq(category_id)` (`0` is falsy), optional
`lte(stock_quantity, 10)`. -/
def productListFilter (f : ProductFilters) (p : ProductRow) : Bool :=
  searchArg f.search productSearch p
  && (match truthyId f.category_id with
      | some cid => decide (p.category_id = some cid)
      | none => true)
  && (if f.low_stock then decide (p.stock_quantity ≤ 10) else true)

/-- `ProductService.getAllProducts`. -/
def getAllProducts (auth : Option String) (db : DB) (f : ProductFilters) :
    Except SvcError (List ProductRow) :=
  match resolveTenant auth db with
  | .error e => .error e
  | .ok t => .ok (tenantQuery (·.tenant_id) (·.created_at) t
      (productListFilter f) f.limit f.offset db.products)

/-- `ProductService.getProductById`. -/
def getProductById (auth : Option String) (db : DB) (id : Nat) :
    Except SvcError ProductRow :=
  match resolveTenant auth db with
  | .error e => .error e
  | .ok t => getByIdScoped (·.id) (·.tenant_id) t id db.products

/-- `ProductService.createProduct`: attaches the caller's tenant and inserts;
the store enforces `check_cost_less_than_price` on the new row. -/
def createProduct (auth : Option String) (db : DB) (pd : CreateProductData)
    (newId : Nat) (now : Nat) : Except SvcError ProductRow × DB :=
  match resolveTenant auth db with
  | .error e => (.error e, db)
  | .ok t =>
    let row : ProductRow :=
      { id := newId, tenant_id := t, name := pd.name
        price := pd.price, cost := pd.cost
        stock_quantity := pd.stock_quantity
        category_id := truthyId pd.category_id
        description := truthyStr pd.description, created_at := now }
    if productCheck row then
      (.ok row, { db with products := db.products ++ [row] })
    else
      (.error .checkViolation, db)

/-- `ProductService.updateProduct`. -/
def updateProduct (auth : Option String) (db : DB) (id : Nat)
    (u : ProductUpdate) : Except SvcError ProductRow × DB :=
  match resolveTenant auth db with
  | .error e => (.error e, db)
  | .ok t =>
    let p := updateScoped (·.id) (·.tenant_id) t id
      (applyProductUpdate u) productCheck db.products
    (p.1, { db with products := p.2 })

/-- `ProductService.deleteProduct`. -/
def deleteProduct (auth : Option String) (db : DB) (id : Nat) :
    Except SvcError Unit × DB :=
  match resolveTenant auth db with
  | .error e => (.error e, db)
  | .ok t =>
    (.ok (), { db with products := deleteScoped (·.id) (·.tenant_id) t id db.products })

/-! ## CategoryService -/

/-- `CreateCategoryData`. -/
structure CreateCategoryData where
  name : String
  description : Option String := none
deriving Repr

/-- `CategoryUpdate` (the `categories` Update type). -/
structure CategoryUpdate where
  tenant_id : Option String := none
  name : Option String := none
  description : Option (Option String) := none
deriving Repr

/-- Apply a `CategoryUpdate` payload to a row. -/
def applyCategoryUpdate (u : CategoryUpdate) (r : CategoryRow) : CategoryRow :=
  { r with
    tenant_id := u.tenant_id.getD r.tenant_id
    name := u.name.getD r.name
    description := u.description.getD r.description }

/-- The search `or(name.ilike, description.ilike)` of `getAllCategories`. -/
def categorySearch (s : String) (c : CategoryRow) : Bool :=
  ilikeContains c.name s || optIlike c.description s

/-- `CategoryService.getAllCategories`. -/
def getAllCategories (auth : Option String) (db : DB) (f : ListFilters) :
    Except SvcError (List CategoryRow) :=
  match resolveTenant auth db with
  | .error e => .error e
  | .ok t => .ok (tenantQuery (·.tenant_id) (·.created_at) t
      (searchArg f.search categorySearch) f.limit f.offset db.categories)

/-- `CategoryService.getCategoryById`. -/
def getCategoryById (auth : Option String) (db : DB) (id : Nat) :
    Except SvcError CategoryRow :=
  match resolveTenant auth db with
  | .error e => .error e
  | .ok t => getByIdScoped (·.id) (·.tenant_id) t id db.categories

/-- `CategoryService.createCategory`. -/
def createCategory (auth : Option String) (db : DB) (cd : CreateCategoryData)
    (newId : Nat) (now : Nat) : Except SvcError CategoryRow × DB :=
  match resolveTenant auth db with
  | .error e => (.error e, db)
  | .ok t =>
    let row : CategoryRow :=
      { id := newId, tenant_id := t, name := cd.name
        description := truthyStr cd.description, created_at := now }
    (.ok row, { db with categories := db.categories ++ [row] })

/-- `CategoryService.updateCategory`. -/
def updateCategory (auth : Option String) (db : DB) (id : Nat)
    (u : CategoryUpdate) : Except SvcError CategoryRow × DB :=
  match resolveTenant auth db with
  | .error e => (.error e, db)
  | .ok t =>
    let p := updateScoped (·.id) (·.tenant_id) t id
      (applyCategoryUpdate u) (fun _ => true) db.categories
    (p.1, { db with categories := p.2 })

/-- `CategoryService.deleteCategory`: refuses while products of the
caller's tenant still reference the category. -/
def deleteCategory (auth : Option String) (db : DB) (id : Nat) :
    Except SvcError Unit × DB :=
  match resolveTenant auth db with
  | .error e => (.error e, db)
  | .ok t =>
    let n := (db.products.filter (fun p =>
      decide (p.category_id = some id) && decide (p.tenant_id = t))).length
    if 0 < n then
      (.error (.categoryNotEmpty n), db)
    else
      (.ok (), { db with categories := deleteScoped (·.id) (·.tenant_id) t id db.categories })

/-- `CategoryService.getCategoriesForSelect`: delegates to
`getAllCategories` with `limit: 100`. -/
def getCategoriesForSelect (auth : Option String) (db : DB) :
    Except SvcError (List CategoryRow) :=
  getAllCategories auth db { limit := some 100 }

/-! ## TenantService -/

/-- `TenantInsert` as used by `TenantService.createTenant`. -/
structure TenantInsert where
  name : String
  address : Option String := none
  status : Option String := none
  subscription_plan : Option String := none
  max_users : Option Int := none
deriving Repr

/-- `TenantService.createTenant`: fills defaults with JavaScript `||`
(`status || 'active'`, `subscription_plan || 'basic'`,
`max_users || 10`) and records `created_by` from the session, which may
be absent.  The `tenants` schema puts no check constraint on
`max_users` (`INTEGER DEFAULT 10` in `tenant-management-fix.sql`). -/
def createTenant (auth : Option String) (db : DB) (ti : TenantInsert)
    (newId : String) (now : Nat) : Except SvcError TenantRow × DB :=
  let row : TenantRow :=
    { id := newId, name := ti.name, address := ti.address
      status := jsOr ti.status "active"
      subscription_plan := jsOr ti.subscription_plan "basic"
      max_users := jsOrInt ti.max_users 10
      created_by := auth, created_at := now }
  (.ok row, { db with tenants := db.tenants ++ [row] })

/-- `tenants` lookup by primary key (`getTenantById`, without the
user-count decoration, which `canAddUser` ignores). -/
def lookupTenant (db : DB) (id : String) : Option TenantRow :=
  db.tenants.find? (fun t => decide (t.id = id))

/-- `TenantService.getTenantUsersCount`: `count(*)` over `user_profiles`
with `eq(tenant_id, tenantId)` — no status filter. -/
def getTenantUsersCount (db : DB) (tenantId : String) : Nat :=
  (db.user_profiles.filter (fun u => decide (u.tenant_id = some tenantId))).length

/-- The result record of `TenantService.canAddUser`. -/
structure CanAddResult where
  canAdd : Bool
  currentCount : Nat
  maxUsers : Int
  err : Option SvcError
deriving DecidableEq, Repr

/-- `TenantService.canAddUser`. -/
def canAddUser (db : DB) (tenantId : String) : CanAddResult :=
  match lookupTenant db tenantId with
  | none => ⟨false, 0, 0, some .notFound⟩
  | some t =>
    let c := getTenantUsersCount db tenantId
    ⟨decide ((c : Int) < t.max_users), c, t.max_users, none⟩

/-! ## UserService and the `user_profiles` row-level-security policies -/

/-- `UserProfileUpdate` (the `user_profiles` Update type). -/
structure UserProfileUpdate where
  email : Option String := none
  role : Option Role := none
  tenant_id : Option (Option String) := none
  full_name : Option (Option String) := none
  status : Option String := none
deriving Repr

/-- Apply a `UserProfileUpdate` payload to a row. -/
def applyUserUpdate (u : UserProfileUpdate) (r : UserRow) : UserRow :=
  { r with
    email := u.email.getD r.email
    role := u.role.getD r.role
    tenant_id := u.tenant_id.getD r.tenant_id
    full_name := u.full_name.getD r.full_name
    status := u.status.getD r.status }

/-- `EXISTS (SELECT 1 FROM user_profiles up WHERE up.id = auth.uid() AND
up.role = 'super_admin')`. -/
def isSuperAdminCaller (profiles : List UserRow) (uid : String) : Bool :=
  profiles.any (fun up => decide (up.id = uid) && decide (up.role = Role.superAdmin))

/-- `EXISTS (SELECT 1 FROM user_profiles up WHERE up.id = auth.uid() AND
up.role = 'tenant_admin' AND up.tenant_id = <rowTid>)` — SQL equality, so
a NULL tenant on either side never matches. -/
def isTenantAdminOf (profiles : List UserRow) (uid : String)
    (rowTid : Option String) : Bool :=
  profiles.any (fun up => decide (up.id = uid)
    && decide (up.role = Role.tenantAdmin) && sqlEq up.tenant_id rowTid)

/-- `USING` of the permissive policies applicable to `UPDATE` on
`user_profiles`: "Super admins can manage all user profiles" OR
"Tenant admins can manage their tenant users" OR
"Users can update their own profile". -/
def userUpdUsing (profiles : List UserRow) (uid : String) (row : UserRow) : Bool :=
  isSuperAdminCaller profiles uid
  || (isTenantAdminOf profiles uid row.tenant_id && decide (row.role = Role.tenantUser))
  || decide (uid = row.id)

/-- `WITH CHECK` of the same policies evaluated on the new row (the two
`FOR ALL` policies reuse their `USING`; the self-update policy pins `role`
and `tenant_id` to the caller's current values, with SQL equality on the
nullable `tenant_id`). -/
def userUpdCheck (profiles : List UserRow) (uid : String) (nrow : UserRow) : Bool :=
  isSuperAdminCaller profiles uid
  || (isTenantAdminOf profiles uid nrow.tenant_id && decide (nrow.role = Role.tenantUser))
  || (decide (uid = nrow.id)
      && match profiles.find? (fun p => decide (p.id = uid)) with
        | some c => decide (nrow.role = c.role) && sqlEq nrow.tenant_id c.tenant_id
        | none => false)

/-- `USING` of the policies applicable to `DELETE` on `user_profiles`
(the self policy is `FOR UPDATE` only). -/
def userDelUsing (profiles : List UserRow) (uid : String) (row : UserRow) : Bool :=
  isSuperAdminCaller profiles uid
  || (isTenantAdminOf profiles uid row.tenant_id && decide (row.role = Role.tenantUser))

/-- `UserService.updateUser` running as session `uid`:
`update(u).eq(id, id).select().single()` against the policy-guarded store.
Rows invisible under `USING` are not touched; a new row failing every
`WITH CHECK` aborts the statement. -/
def updateUser (uid : String) (db : DB) (id : String) (u : UserProfileUpdate) :
    Except SvcError UserRow × DB :=
  let hit := fun r => decide (r.id = id) && userUpdUsing db.user_profiles uid r
  let targets := db.user_profiles.filter hit
  if targets.all (fun r => userUpdCheck db.user_profiles uid (applyUserUpdate u r)) then
    let profiles' := db.user_profiles.map (fun r => if hit r then applyUserUpdate u r else r)
    (singleOf (targets.map (applyUserUpdate u)), { db with user_profiles := profiles' })
  else (.error .rlsViolation, db)

/-- `UserService.updateUserStatus`. -/
def updateUserStatus (uid : String) (db : DB) (id : String) (status : String) :
    Except SvcError UserRow × DB :=
  updateUser uid db id { status := some status }

/-- `UserService.updateUserRole`. -/
def updateUserRole (uid : String) (db : DB) (id : String) (role : Role) :
    Except SvcError UserRow × DB :=
  updateUser uid db id { role := some role }

/-- `DELETE FROM user_profiles WHERE id = <id>` under the policies, as
session `uid` (rows failing every `USING` are left in place). -/
def deleteUserRow (uid : String) (db : DB) (id : String) : DB :=
  let keep := fun r => !(decide (r.id = id) && userDelUsing db.user_profiles uid r)
  { db with user_profiles := db.user_profiles.filter keep }

/-- The result record of `UserService.canAssignToTenant`. -/
structure CanAssignResult where
  canAssign : Bool
  reason : Option String
  err : Option SvcError
deriving DecidableEq, Repr

/-- The capacity message interpolated by `canAssignToTenant`. -/
def capacityMsg (c : Nat) (m : Int) : String :=
  "Tenant is at capacity (" ++ toString c ++ "/" ++ toString m ++ " users)"

/-- `UserService.canAssignToTenant`. -/
def canAssignToTenant (db : DB) (userId tenantId : String) : CanAssignResult :=
  match lookupProfile db userId with
  | none => ⟨false, some "User not found", some .notFound⟩
  | some u =>
    if u.tenant_id = some tenantId then ⟨true, none, none⟩
    else
      let r := canAddUser db tenantId
      match r.err with
      | some e => ⟨false, some "Error checking tenant capacity", some e⟩
      | none =>
        if r.canAdd then ⟨true, none, none⟩
        else ⟨false, some (capacityMsg r.currentCount r.maxUsers), none⟩

/-! ## Profile resolution (`AuthContext.fetchUserProfile`) -/

/-- The `UserProfile` interface of `AuthContext.tsx`. -/
structure AuthProfile where
  id : String
  email : String
  role : Role
  tenant_id : Option String
  full_name : Option String
deriving DecidableEq, Repr

/-- `fetchUserProfile`: reads the caller's own `user_profiles` row; when
`.single()` finds no row (`PGRST116`) it synthesizes a default
least-privileged profile from the session identity instead of failing
(`none` is reserved for transport failures, which the pure model never
produces). -/
def fetchUserProfile (authEmail authMetaName : Option String) (db : DB)
    (userId : String) : Option AuthProfile :=
  match lookupProfile db userId with
  | some u => some ⟨u.id, u.email, u.role, u.tenant_id, u.full_name⟩
  | none =>
    some ⟨userId, jsOr authEmail "", Role.tenantUser, none,
      some (jsOr authMetaName (jsOr authEmail ""))⟩

/-! ## Helper lemmas about the store combinators -/

theorem paginate_sublist {ρ : Type} (lim off : Option Nat) (l : List ρ) :
    (paginate lim off l).Sublist l := by
  unfold paginate
  cases truthyNat off with
  | some o => exact (List.take_sublist _ _).trans (List.drop_sublist _ _)
  | none =>
    cases truthyNat lim with
    | some n => exact List.take_sublist _ _
    | none => exact List.Sublist.refl l

theorem sortByKeyDesc_perm {ρ : Type} (key : ρ → Nat) (l : List ρ) :
    List.Perm (sortByKeyDesc key l) l :=
  List.perm_insertionSort _ l

theorem sortByKeyDesc_sorted {ρ : Type} (key : ρ → Nat) (l : List ρ) :
    (sortByKeyDesc key l).Sorted (fun a b => key b ≤ key a) :=
  List.sorted_insertionSort _ l

theorem tenantQuery_mem {ρ : Type} {tenantOf : ρ → String} {createdOf : ρ → Nat}
    {t : String} {srch : ρ → Bool} {lim off : Option Nat} {rows : List ρ} {r : ρ}
    (h : r ∈ tenantQuery tenantOf createdOf t srch lim off rows) :
    tenantOf r = t ∧ r ∈ rows := by
  unfold tenantQuery at h
  have h1 := (paginate_sublist lim off _).subset h
  have h2 := (sortByKeyDesc_perm createdOf _).subset h1
  have h3 := List.mem_filter.mp h2
  rw [Bool.and_eq_true] at h3
  exact ⟨of_decide_eq_true h3.2.1, h3.1⟩

theorem tenantQuery_sorted {ρ : Type} (tenantOf : ρ → String) (createdOf : ρ → Nat)
    (t : String) (srch : ρ → Bool) (lim off : Option Nat) (rows : List ρ) :
    (tenantQuery tenantOf createdOf t srch lim off rows).Sorted
      (fun a b => createdOf b ≤ createdOf a) := by
  unfold tenantQuery
  exact List.Pairwise.sublist (paginate_sublist _ _ _) (sortByKeyDesc_sorted _ _)

theorem singleOf_ok_mem {ρ : Type} {l : List ρ} {r : ρ}
    (h : singleOf l = .ok r) : r ∈ l := by
  match l, h with
  | [a], h =>
    have : a = r := by simpa [singleOf] using h
    simp [this]

theorem getByIdScoped_ok {ρ : Type} {idOf : ρ → Nat} {tenantOf : ρ → String}
    {t : String} {id : Nat} {rows : List ρ} {r : ρ}
    (h : getByIdScoped idOf tenantOf t id rows = .ok r) :
    idOf r = id ∧ tenantOf r = t ∧ r ∈ rows := by
  unfold getByIdScoped at h
  have h2 := List.mem_filter.mp (singleOf_ok_mem h)
  rw [Bool.and_eq_true] at h2
  exact ⟨of_decide_eq_true h2.2.1, of_decide_eq_true h2.2.2, h2.1⟩

theorem mem_map_ite {ρ : Type} {l : List ρ} {p : ρ → Bool} {g : ρ → ρ} {r' : ρ}
    (h : r' ∈ l.map (fun r => if p r then g r else r)) :
    r' ∈ l ∨ ∃ r, r ∈ l ∧ p r = true ∧ r' = g r := by
  rcases List.mem_map.mp h with ⟨a, ha, hfa⟩
  by_cases hp : p a = true
  · right
    refine ⟨a, ha, hp, ?_⟩
    rw [← hfa, if_pos hp]
  · left
    rw [if_neg hp] at hfa
    rw [← hfa]
    exact ha

theorem updateScoped_mem {ρ : Type} {idOf : ρ → Nat} {tenantOf : ρ → String}
    {t : String} {id : Nat} {g : ρ → ρ} {ck : ρ → Bool} {rows : List ρ} {r' : ρ}
    (h : r' ∈ (updateScoped idOf tenantOf t id g ck rows).2) :
    r' ∈ rows ∨ ∃ r, r ∈ rows ∧ idOf r = id ∧ tenantOf r = t ∧ r' = g r := by
  simp only [updateScoped] at h
  split at h
  · rcases mem_map_ite h with h1 | ⟨r, hr, hcond, hgr⟩
    · exact Or.inl h1
    · rw [Bool.and_eq_true] at hcond
      exact Or.inr ⟨r, hr, of_decide_eq_true hcond.1, of_decide_eq_true hcond.2, hgr⟩
  · exact Or.inl h

theorem updateScoped_ok {ρ : Type} {idOf : ρ → Nat} {tenantOf : ρ → String}
    {t : String} {id : Nat} {g : ρ → ρ} {ck : ρ → Bool} {rows : List ρ} {r : ρ}
    (h : (updateScoped idOf tenantOf t id g ck rows).1 = .ok r) :
    ∃ r0, r0 ∈ rows ∧ idOf r0 = id ∧ tenantOf r0 = t ∧ r = g r0 ∧ ck r = true := by
  simp only [updateScoped] at h
  split at h
  case isTrue hall =>
    rcases List.mem_map.mp (singleOf_ok_mem h) with ⟨r0, hr0, hgr⟩
    have h2 := List.mem_filter.mp hr0
    rw [Bool.and_eq_true] at h2
    refine ⟨r0, h2.1, of_decide_eq_true h2.2.1, of_decide_eq_true h2.2.2, hgr.symm, ?_⟩
    rw [← hgr]
    exact List.all_eq_true.mp hall r0 hr0
  case isFalse => exact absurd h (by simp)

theorem deleteScoped_not_mem {ρ : Type} {idOf : ρ → Nat} {tenantOf : ρ → String}
    {t : String} {id : Nat} {rows : List ρ} {r : ρ}
    (hr : r ∈ rows) (h : r ∉ deleteScoped idOf tenantOf t id rows) :
    idOf r = id ∧ tenantOf r = t := by
  unfold deleteScoped at h
  by_contra hc
  exact h (List.mem_filter.mpr ⟨hr, by simpa using not_and_or.mp hc⟩)

/-! ## C1 — tenant isolation of the Customer/Product/Category services -/

/-- **C1.** For every operation of CustomerService, ProductService and
CategoryService (list, get-by-id, create, update, delete) and every caller
whose resolved profile has tenant reference `Y`: every row a list or
get-by-id operation returns has `tenant_id = Y`; every insert sets
`tenant_id = Y`; every row an update rewrites or a delete removes had
`tenant_id = Y` (the query carries the filter `tenant_id = Y`), and an
update whose payload does not itself set `tenant_id` returns a row with
`tenant_id = Y`.  Hence, for any combination of search, filter and
pagination arguments, a caller resolved to tenant `Y` never receives a row
owned by a different tenant. -/
theorem tenant_isolation (auth : Option String) (db : DB) (Y : String)
    (hY : resolveTenant auth db = .ok Y) :
    (∀ f rows r, getAllCustomers auth db f = .ok rows → r ∈ rows → r.tenant_id = Y)
    ∧ (∀ f rows r, getAllProducts auth db f = .ok rows → r ∈ rows → r.tenant_id = Y)
    ∧ (∀ f rows r, getAllCategories auth db f = .ok rows → r ∈ rows → r.tenant_id = Y)
    ∧ (∀ id r, getCustomerById auth db id = .ok r → r.tenant_id = Y)
    ∧ (∀ id r, getProductById auth db id = .ok r → r.tenant_id = Y)
    ∧ (∀ id r, getCategoryById auth db id = .ok r → r.tenant_id = Y)
    ∧ (∀ cd i n r db', createCustomer auth db cd i n = (.ok r, db') →
        r.tenant_id = Y ∧ db'.customers = db.customers ++ [r])
    ∧ (∀ pd i n r db', createProduct auth db pd i n = (.ok r, db') →
        r.tenant_id = Y ∧ db'.products = db.products ++ [r])
    ∧ (∀ cd i n r db', createCategory auth db cd i n = (.ok r, db') →
        r.tenant_id = Y ∧ db'.categories = db.categories ++ [r])
    ∧ (∀ id u, ∀ r' ∈ (updateCustomer auth db id u).2.customers,
        r' ∈ db.customers ∨ ∃ r ∈ db.customers, r.tenant_id = Y ∧ r' = applyCustomerUpdate u r)
    ∧ (∀ id u, ∀ r' ∈ (updateProduct auth db id u).2.products,
        r' ∈ db.products ∨ ∃ r ∈ db.products, r.tenant_id = Y ∧ r' = applyProductUpdate u r)
    ∧ (∀ id u, ∀ r' ∈ (updateCategory auth db id u).2.categories,
        r' ∈ db.categories ∨ ∃ r ∈ db.categories, r.tenant_id = Y ∧ r' = applyCategoryUpdate u r)
    ∧ (∀ id u r, (updateCustomer auth db id u).1 = .ok r → u.tenant_id = none → r.tenant_id = Y)
    ∧ (∀ id u r, (updateProduct auth db id u).1 = .ok r → u.tenant_id = none → r.tenant_id = Y)
    ∧ (∀ id u r, (updateCategory auth db id u).1 = .ok r → u.tenant_id = none → r.tenant_id = Y)
    ∧ (∀ id, ∀ r ∈ db.customers, r ∉ (deleteCustomer auth db id).2.customers → r.tenant_id = Y)
    ∧ (∀ id, ∀ r ∈ db.products, r ∉ (deleteProduct auth db id).2.products → r.tenant_id = Y)
    ∧ (∀ id, ∀ r ∈ db.categories, r ∉ (deleteCategory auth db id).2.categories → r.tenant_id = Y) := by
  refine ⟨?_, ?_, ?_, ?_, ?_, ?_, ?_, ?_, ?_, ?_, ?_, ?_, ?_, ?_, ?_, ?_, ?_, ?_⟩
  · intro f rows r hrows hr
    simp only [getAllCustomers, hY, Except.ok.injEq] at hrows
    subst hrows
    exact (tenantQuery_mem hr).1
  · intro f rows r hrows hr
    simp only [getAllProducts, hY, Except.ok.injEq] at hrows
    subst hrows
    exact (tenantQuery_mem hr).1
  · intro f rows r hrows hr
    simp only [getAllCategories, hY, Except.ok.injEq] at hrows
    subst hrows
    exact (tenantQuery_mem hr).1
  · intro id r h
    simp only [getCustomerById, hY] at h
    exact (getByIdScoped_ok h).2.1
  · intro id r h
    simp only [getProductById, hY] at h
    exact (getByIdScoped_ok h).2.1
  · intro id r h
    simp only [getCategoryById, hY] at h
    exact (getByIdScoped_ok h).2.1
  · intro cd i n r db' hc
    simp only [createCustomer, hY, Prod.mk.injEq, Except.ok.injEq] at hc
    obtain ⟨h1, h2⟩ := hc
    subst h1
    subst h2
    exact ⟨rfl, rfl⟩
  · intro pd i n r db' hc
    simp only [createProduct, hY] at hc
    split at hc
    · simp only [Prod.mk.injEq, Except.ok.injEq] at hc
      obtain ⟨h1, h2⟩ := hc
      subst h1
      subst h2
      exact ⟨rfl, rfl⟩
    · simp at hc
  · intro cd i n r db' hc
    simp only [createCategory, hY, Prod.mk.injEq, Except.ok.injEq] at hc
    obtain ⟨h1, h2⟩ := hc
    subst h1
    subst h2
    exact ⟨rfl, rfl⟩
  · intro id u r' hr'
    simp only [updateCustomer, hY] at hr'
    rcases updateScoped_mem hr' with h | ⟨r, hr, _, ht, hg⟩
    · exact Or.inl h
    · exact Or.inr ⟨r, hr, ht, hg⟩
  · intro id u r' hr'
    simp only [updateProduct, hY] at hr'
    rcases updateScoped_mem hr' with h | ⟨r, hr, _, ht, hg⟩
    · exact Or.inl h
    · exact Or.inr ⟨r, hr, ht, hg⟩
  · intro id u r' hr'
    simp only [updateCategory, hY] at hr'
    rcases updateScoped_mem hr' with h | ⟨r, hr, _, ht, hg⟩
    · exact Or.inl h
    · exact Or.inr ⟨r, hr, ht, hg⟩
  · intro id u r h hnone
    simp only [updateCustomer, hY] at h
    obtain ⟨r0, _, _, ht, hgr, _⟩ := updateScoped_ok h
    rw [hgr]
    simp [applyCustomerUpdate, hnone, ht]
  · intro id u r h hnone
    simp only [updateProduct, hY] at h
    obtain ⟨r0, _, _, ht, hgr, _⟩ := updateScoped_ok h
    rw [hgr]
    simp [applyProductUpdate, hnone, ht]
  · intro id u r h hnone
    simp only [updateCategory, hY] at h
    obtain ⟨r0, _, _, ht, hgr, _⟩ := updateScoped_ok h
    rw [hgr]
    simp [applyCategoryUpdate, hnone, ht]
  · intro id r hr hnot
    simp only [deleteCustomer, hY] at hnot
    exact (deleteScoped_not_mem hr hnot).2
  · intro id r hr hnot
    simp only [deleteProduct, hY] at hnot
    exact (deleteScoped_not_mem hr hnot).2
  · intro id r hr hnot
    simp only [deleteCategory, hY] at hnot
    split at hnot
    · exact absurd hr hnot
    · exact (deleteScoped_not_mem hr hnot).2

/-- A caller `"u"` of tenant `"T"` (with capacity 2), a second unassigned
profile, one customer, one product referencing one category — a concrete
store used to instantiate the claims with hypotheses. -/
def dbSample : DB :=
  { user_profiles := [
      { id := "u", email := "u@shop.test", role := .tenantUser,
        tenant_id := some "T", full_name := some "U", status := "active", created_at := 1 }]
    tenants := [
      { id := "T", name := "Shop T", address := none, status := "active",
        subscription_plan := "basic", max_users := 2, created_by := none, created_at := 0 }]
    customers := [
      { id := 1, tenant_id := "T", name := "Ada", email := none, phone := none,
        address := none, created_at := 2 }]
    products := [
      { id := 1, tenant_id := "T", name := "Widget", price := 10, cost := 4,
        stock_quantity := 5, category_id := some 1, description := none, created_at := 3 }]
    categories := [
      { id := 1, tenant_id := "T", name := "Tools", description := none, created_at := 4 }] }

theorem tenant_isolation_witness :
    resolveTenant (some "u") dbSample = Except.ok "T"
    ∧ (∀ f rows r, getAllCustomers (some "u") dbSample f = .ok rows → r ∈ rows →
        r.tenant_id = "T") :=
  ⟨rfl, (tenant_isolation (some "u") dbSample "T" rfl).1⟩

/-! ## C4 — tenant capacity check -/

/-- `canAddUser` reports `canAdd = false` whenever it reports an error. -/
theorem canAddUser_err_false {db : DB} {tid : String} {e : SvcError}
    (h : (canAddUser db tid).err = some e) : (canAddUser db tid).canAdd = false := by
  unfold canAddUser at *
  cases hl : lookupTenant db tid with
  | none => simp [hl]
  | some t =>
    rw [hl] at h
    exact absurd h (by simp)

/-- **C4.** For a tenant identifier resolving to a tenant `t`, `canAddUser`
returns `{ canAdd := currentCount < max_users, currentCount, maxUsers }`,
where `currentCount` counts all `user_profiles` rows of that tenant
regardless of status; `canAdd` is true exactly when
`currentCount < max_users` and is false once the count reaches
`max_users`; an identifier that does not resolve yields a non-null
error. -/
theorem canAddUser_spec (db : DB) (tid : String) :
    (∀ t, lookupTenant db tid = some t →
      canAddUser db tid =
        ⟨decide ((getTenantUsersCount db tid : Int) < t.max_users),
         getTenantUsersCount db tid, t.max_users, none⟩
      ∧ ((canAddUser db tid).canAdd = true ↔
          (getTenantUsersCount db tid : Int) < t.max_users)
      ∧ ((getTenantUsersCount db tid : Int) = t.max_users →
          (canAddUser db tid).canAdd = false))
    ∧ (lookupTenant db tid = none → (canAddUser db tid).err ≠ none) := by
  constructor
  · intro t ht
    refine ⟨by simp [canAddUser, ht], by simp [canAddUser, ht], ?_⟩
    intro heq
    simp [canAddUser, ht, heq]
  · intro hn
    simp [canAddUser, hn]

theorem canAddUser_spec_witness :
    (lookupTenant dbSample "T" =
      some { id := "T", name := "Shop T", address := none, status := "active",
             subscription_plan := "basic", max_users := 2, created_by := none,
             created_at := 0 })
    ∧ canAddUser dbSample "T" = ⟨true, 1, 2, none⟩ := by
  refine ⟨rfl, ?_⟩
  have h := ((canAddUser_spec dbSample "T").1 _ rfl).1
  rw [h]
  decide

/-! ## C5 — compound assignment check -/

/-- **C5.** For an existing user, `canAssignToTenant` succeeds outright
when the user's current tenant already equals the target (no capacity
consultation can change the result); otherwise `canAssign` equals
`canAddUser`'s `canAdd`, and when capacity resolution succeeded but
`canAdd` is false the failure reason reports `currentCount/maxUsers`. -/
theorem canAssignToTenant_spec (db : DB) (userId tenantId : String) (u : UserRow)
    (hu : lookupProfile db userId = some u) :
    (u.tenant_id = some tenantId →
      canAssignToTenant db userId tenantId = ⟨true, none, none⟩)
    ∧ (u.tenant_id ≠ some tenantId →
      (canAssignToTenant db userId tenantId).canAssign = (canAddUser db tenantId).canAdd
      ∧ ((canAddUser db tenantId).err = none → (canAddUser db tenantId).canAdd = false →
          (canAssignToTenant db userId tenantId).reason =
            some (capacityMsg (canAddUser db tenantId).currentCount
              (canAddUser db tenantId).maxUsers))) := by
  constructor
  · intro h
    simp [canAssignToTenant, hu, h]
  · intro h
    simp only [canAssignToTenant, hu]
    rw [if_neg h]
    rcases hr : canAddUser db tenantId with ⟨ca, cc, mu, err⟩
    cases err with
    | some e =>
      have hf : ca = false := by
        have h2 := @canAddUser_err_false db tenantId e (by rw [hr])
        rw [hr] at h2
        exact h2
      subst hf
      exact ⟨by simp, fun hn => absurd hn (by simp)⟩
    | none =>
      cases ca with
      | true => exact ⟨by simp, fun _ hf => by simp at hf⟩
      | false => exact ⟨by simp, fun _ _ => by simp [capacityMsg]⟩

theorem canAssignToTenant_spec_witness :
    (lookupProfile dbSample "u" =
      some { id := "u", email := "u@shop.test", role := .tenantUser,
             tenant_id := some "T", full_name := some "U", status := "active",
             created_at := 1 })
    ∧ canAssignToTenant dbSample "u" "T" = ⟨true, none, none⟩ :=
  ⟨rfl, (canAssignToTenant_spec dbSample "u" "T" _ rfl).1 rfl⟩

/-! ## C6 — missing profile falls back to a default least-privileged profile -/

/-- **C6.** When the authenticated identity has no `user_profiles` row,
`fetchUserProfile` does not fail: it synthesizes a default profile whose
role is `tenant_user` and whose tenant reference is null. -/
theorem fetchUserProfile_default (authEmail authMetaName : Option String)
    (db : DB) (userId : String)
    (h : lookupProfile db userId = none) :
    ∃ p, fetchUserProfile authEmail authMetaName db userId = some p
      ∧ p.role = Role.tenantUser ∧ p.tenant_id = none := by
  simp only [fetchUserProfile, h]
  exact ⟨_, rfl, rfl, rfl⟩

/-- An empty store. -/
def dbEmpty : DB :=
  { user_profiles := [], tenants := [], customers := [], products := [],
    categories := [] }

theorem fetchUserProfile_default_witness :
    lookupProfile dbEmpty "ghost" = none
    ∧ ∃ p, fetchUserProfile (some "g@x.test") none dbEmpty "ghost" = some p
        ∧ p.role = Role.tenantUser ∧ p.tenant_id = none :=
  ⟨rfl, fetchUserProfile_default (some "g@x.test") none dbEmpty "ghost" rfl⟩

/-! ## C7 — category deletion guard -/

/-- **C7.** For a category of the caller's tenant, `deleteCategory` first
counts the tenant's products referencing it; a positive count `n` fails
with `categoryNotEmpty n` and leaves the store unchanged; a zero count
deletes, after which no category row with that id remains in the caller's
tenant. -/
theorem deleteCategory_guard (auth : Option String) (db : DB) (Y : String)
    (hY : resolveTenant auth db = .ok Y)
    (cat : CategoryRow) (_hc : cat ∈ db.categories) (_hct : cat.tenant_id = Y) :
    (0 < (db.products.filter (fun p =>
        decide (p.category_id = some cat.id) && decide (p.tenant_id = Y))).length →
      deleteCategory auth db cat.id =
        (.error (.categoryNotEmpty (db.products.filter (fun p =>
          decide (p.category_id = some cat.id) && decide (p.tenant_id = Y))).length), db))
    ∧ ((db.products.filter (fun p =>
        decide (p.category_id = some cat.id) && decide (p.tenant_id = Y))).length = 0 →
      (deleteCategory auth db cat.id).1 = .ok ()
      ∧ ∀ c ∈ (deleteCategory auth db cat.id).2.categories,
          ¬(c.id = cat.id ∧ c.tenant_id = Y)) := by
  constructor
  · intro hpos
    simp only [deleteCategory, hY]
    rw [if_pos hpos]
  · intro hzero
    simp only [deleteCategory, hY]
    rw [if_neg (by rw [hzero]; exact lt_irrefl 0)]
    refine ⟨rfl, ?_⟩
    intro c hcmem
    have h2 := List.mem_filter.mp hcmem
    intro ⟨h3, h4⟩
    have := h2.2
    rw [Bool.not_eq_eq_eq_not, Bool.not_true, Bool.and_eq_false_iff] at this
    rcases this with h5 | h5 <;> simp [h3, h4] at h5

/-- The category row of `dbSample`. -/
def catTools : CategoryRow :=
  { id := 1, tenant_id := "T", name := "Tools", description := none,
    created_at := 4 }

theorem deleteCategory_guard_witness :
    resolveTenant (some "u") dbSample = Except.ok "T"
    ∧ catTools ∈ dbSample.categories
    ∧ deleteCategory (some "u") dbSample 1 =
        (.error (.categoryNotEmpty 1), dbSample) := by
  refine ⟨rfl, by decide, ?_⟩
  exact (deleteCategory_guard (some "u") dbSample "T" rfl catTools (by decide) rfl).1
    (by decide)

/-! ## Lemmas about the `user_profiles` policies -/

theorem sqlEq_eq {a b : Option String} (h : sqlEq a b = true) : a = b := by
  match a, b with
  | some x, some y =>
    simp only [sqlEq, beq_iff_eq] at h
    rw [h]
  | some x, none => simp [sqlEq] at h
  | none, _ => simp [sqlEq] at h

theorem findById_mem {profiles : List UserRow} {uid : String} {c : UserRow}
    (hc : profiles.find? (fun p => decide (p.id = uid)) = some c) :
    c ∈ profiles ∧ c.id = uid := by
  have h1 := List.mem_of_find?_eq_some hc
  have h2 := List.find?_some hc
  simp only [decide_eq_true_eq] at h2
  exact ⟨h1, h2⟩

theorem findById_unique {profiles : List UserRow} {uid : String} {c : UserRow}
    (hnd : (profiles.map (·.id)).Nodup)
    (hc : profiles.find? (fun p => decide (p.id = uid)) = some c) :
    ∀ r ∈ profiles, r.id = uid → r = c := by
  intro r hr hid
  have h1 := findById_mem hc
  exact List.inj_on_of_nodup_map hnd hr h1.1 (by rw [hid, h1.2])

theorem caller_not_superAdmin {profiles : List UserRow} {uid : String} {c : UserRow}
    (hnd : (profiles.map (·.id)).Nodup)
    (hc : profiles.find? (fun p => decide (p.id = uid)) = some c)
    (h : c.role ≠ Role.superAdmin) :
    isSuperAdminCaller profiles uid = false := by
  rw [Bool.eq_false_iff]
  intro habs
  rcases List.any_eq_true.mp habs with ⟨up, hup, hcond⟩
  simp only [Bool.and_eq_true, decide_eq_true_eq] at hcond
  have := findById_unique hnd hc up hup hcond.1
  rw [this] at hcond
  exact h hcond.2

theorem caller_not_tenantAdmin {profiles : List UserRow} {uid : String} {c : UserRow}
    (hnd : (profiles.map (·.id)).Nodup)
    (hc : profiles.find? (fun p => decide (p.id = uid)) = some c)
    (h : c.role ≠ Role.tenantAdmin) :
    ∀ tid, isTenantAdminOf profiles uid tid = false := by
  intro tid
  rw [Bool.eq_false_iff]
  intro habs
  rcases List.any_eq_true.mp habs with ⟨up, hup, hcond⟩
  simp only [Bool.and_eq_true, decide_eq_true_eq] at hcond
  obtain ⟨⟨hid, hrole2⟩, _⟩ := hcond
  rw [findById_unique hnd hc up hup hid] at hrole2
  exact h hrole2

/-- A list is unchanged by a map that fixes each of its elements. -/
theorem map_id_of_eq {ρ : Type} {l : List ρ} {f : ρ → ρ}
    (h : ∀ a ∈ l, f a = a) : l.map f = l := by
  induction l with
  | nil => rfl
  | cons a tl ih =>
    rw [List.map_cons, h a (List.mem_cons_self a tl),
      ih (fun b hb => h b (List.mem_cons_of_mem a hb))]

/-! ## C2 — self-modification of privilege fields -/

/-- **C2 (amended).** Through `UserService.updateUser` (hence also
`updateUserRole`), a caller whose role is `tenant_user` can never change
their own `role` or `tenant_id`: a successful self-update returns a row
whose `role` and `tenant_id` equal their current values.  (The `status`
field is *not* pinned — see the counterexample — and super_admin callers,
as well as tenant_admin self-demotion to tenant_user, escape the
restriction through the blanket `FOR ALL` policies.) -/
theorem self_update_pins_role_and_tenant (db : DB) (uid : String) (c : UserRow)
    (hnd : (db.user_profiles.map (·.id)).Nodup)
    (hc : lookupProfile db uid = some c)
    (hrole : c.role = Role.tenantUser) :
    ∀ u r db', updateUser uid db uid u = (.ok r, db') →
      r.role = c.role ∧ r.tenant_id = c.tenant_id := by
  intro u r db' h
  have hcf : db.user_profiles.find? (fun p => decide (p.id = uid)) = some c := hc
  simp only [updateUser] at h
  split at h
  case isTrue hall =>
    rw [Prod.mk.injEq] at h
    obtain ⟨h1, _⟩ := h
    rcases List.mem_map.mp (singleOf_ok_mem h1) with ⟨r0, hr0, hgr⟩
    have h2 := List.mem_filter.mp hr0
    rw [Bool.and_eq_true] at h2
    have hid0 := of_decide_eq_true h2.2.1
    have hr0c : r0 = c := findById_unique hnd hcf r0 h2.1 hid0
    have hck := List.all_eq_true.mp hall r0 hr0
    rw [hr0c] at hck hgr
    unfold userUpdCheck at hck
    rw [caller_not_superAdmin hnd hcf (by rw [hrole]; intro hx; cases hx),
      caller_not_tenantAdmin hnd hcf (by rw [hrole]; intro hx; cases hx),
      hcf] at hck
    simp only [Bool.false_and, Bool.false_or, Bool.and_eq_true,
      decide_eq_true_eq] at hck
    rw [← hgr]
    exact ⟨hck.2.1, sqlEq_eq hck.2.2⟩
  case isFalse =>
    rw [Prod.mk.injEq] at h
    exact absurd h.1 (by simp)

theorem self_update_pins_role_and_tenant_witness :
    (dbSample.user_profiles.map (·.id)).Nodup
    ∧ lookupProfile dbSample "u" =
        some { id := "u", email := "u@shop.test", role := .tenantUser,
               tenant_id := some "T", full_name := some "U", status := "active",
               created_at := 1 }
    ∧ (∀ u r db', updateUser "u" dbSample "u" u = (.ok r, db') →
        r.role = Role.tenantUser ∧ r.tenant_id = some "T") :=
  ⟨by decide, rfl, self_update_pins_role_and_tenant dbSample "u" _ (by decide) rfl rfl⟩

/-- The caller's row of `dbSample` after a successful self `status`
update to `"inactive"`. -/
def uInactive : UserRow :=
  { id := "u", email := "u@shop.test", role := .tenantUser,
    tenant_id := some "T", full_name := some "U", status := "inactive",
    created_at := 1 }

/-- **C2, counterexample.** The claim as frozen says no caller can set
their own `status` field (a self-update succeeds only when role *and
status* are unchanged).  On the code, `updateUserStatus` by the
tenant_user `"u"` on their own row succeeds and changes `status` from
`"active"` to `"inactive"`: the self-update policy's `WITH CHECK` pins
`role` and `tenant_id`, not `status`. -/
theorem self_status_change_allowed :
    (updateUserStatus "u" dbSample "u" "inactive").1 = Except.ok uInactive
    ∧ uInactive.status ≠ "active" := by
  constructor
  · rfl
  · decide

/-! ## C3 — tenant_admin writes against admin rows -/

/-- **C3 (amended).** For a caller whose role is `tenant_admin` and any
*other* user's row whose role is `tenant_admin` or `super_admin`, every
write is rejected even within the same tenant: an `updateUser` against
that row matches no visible row (the statement errors and the store is
unchanged), and a policy-guarded delete leaves the store unchanged.
(The caller's *own* tenant_admin row is the exception: the self-update
policy admits limited updates to it — see the counterexample.) -/
theorem tenantAdmin_cannot_write_admin_rows (db : DB) (uid : String)
    (c tgt : UserRow)
    (hnd : (db.user_profiles.map (·.id)).Nodup)
    (hc : lookupProfile db uid = some c)
    (hcrole : c.role = Role.tenantAdmin)
    (htgt : tgt ∈ db.user_profiles)
    (htrole : tgt.role ≠ Role.tenantUser)
    (hne : tgt.id ≠ uid) :
    (∀ u, updateUser uid db tgt.id u = (.error .notFound, db))
    ∧ deleteUserRow uid db tgt.id = db := by
  have hcf : db.user_profiles.find? (fun p => decide (p.id = uid)) = some c := hc
  have hsup : isSuperAdminCaller db.user_profiles uid = false :=
    caller_not_superAdmin hnd hcf (by rw [hcrole]; intro hx; cases hx)
  have husing : ∀ r ∈ db.user_profiles,
      (decide (r.id = tgt.id) && userUpdUsing db.user_profiles uid r) = false := by
    intro r hr
    by_cases hid : r.id = tgt.id
    · have hrt : r = tgt := List.inj_on_of_nodup_map hnd hr htgt hid
      subst hrt
      unfold userUpdUsing
      rw [hsup]
      have h1 : decide (r.role = Role.tenantUser) = false := by
        simp [htrole]
      have h2 : decide (uid = r.id) = false := by
        rw [decide_eq_false_iff_not]
        intro hx
        exact hne hx.symm
      rw [h1, h2]
      simp
    · simp [hid]
  have hfil : db.user_profiles.filter
      (fun r => decide (r.id = tgt.id) && userUpdUsing db.user_profiles uid r) = [] := by
    rw [List.filter_eq_nil_iff]
    intro a ha
    rw [husing a ha]
    simp
  constructor
  · intro u
    simp only [updateUser, hfil]
    rw [if_pos (by simp)]
    have hmap : db.user_profiles.map
        (fun r => if (decide (r.id = tgt.id) && userUpdUsing db.user_profiles uid r) = true
          then applyUserUpdate u r else r) = db.user_profiles := by
      apply map_id_of_eq
      intro a ha
      rw [husing a ha]
      simp
    rw [hmap]
    rfl
  · have hdel : ∀ r ∈ db.user_profiles,
        (! (decide (r.id = tgt.id) && userDelUsing db.user_profiles uid r)) = true := by
      intro r hr
      by_cases hid : r.id = tgt.id
      · have hrt : r = tgt := List.inj_on_of_nodup_map hnd hr htgt hid
        subst hrt
        unfold userDelUsing
        rw [hsup]
        have h1 : decide (r.role = Role.tenantUser) = false := by
          simp [htrole]
        rw [h1]
        simp
      · simp [hid]
    simp only [deleteUserRow]
    rw [List.filter_eq_self.mpr hdel]

/-- A store whose only profile is the tenant_admin `"a"` of tenant `"T"`,
plus an unrelated super_admin row `"s"`. -/
def dbAdmin : DB :=
  { user_profiles := [
      { id := "a", email := "a@shop.test", role := .tenantAdmin,
        tenant_id := some "T", full_name := some "A", status := "active", created_at := 1 },
      { id := "s", email := "s@shop.test", role := .superAdmin,
        tenant_id := none, full_name := some "S", status := "active", created_at := 2 }]
    tenants := []
    customers := []
    products := []
    categories := [] }

theorem tenantAdmin_cannot_write_admin_rows_witness :
    (dbAdmin.user_profiles.map (·.id)).Nodup
    ∧ lookupProfile dbAdmin "a" =
        some { id := "a", email := "a@shop.test", role := .tenantAdmin,
               tenant_id := some "T", full_name := some "A", status := "active",
               created_at := 1 }
    ∧ (∀ u, updateUser "a" dbAdmin "s" u = (.error .notFound, dbAdmin))
    ∧ deleteUserRow "a" dbAdmin "s" = dbAdmin := by
  have h := tenantAdmin_cannot_write_admin_rows dbAdmin "a" _
    { id := "s", email := "s@shop.test", role := .superAdmin, tenant_id := none,
      full_name := some "S", status := "active", created_at := 2 }
    (by decide) rfl rfl (by decide) (by decide) (by decide)
  exact ⟨by decide, rfl, h.1, h.2⟩

/-- The tenant_admin's own row after a successful self `full_name`
update. -/
def aRenamed : UserRow :=
  { id := "a", email := "a@shop.test", role := .tenantAdmin,
    tenant_id := some "T", full_name := some "A2", status := "active",
    created_at := 1 }

/-- **C3, counterexample.** The claim as frozen rejects *every* write by a
tenant_admin against *every* row whose role is tenant_admin or
super_admin.  On the code, the tenant_admin `"a"`'s update of their own
(tenant_admin) row succeeds through the "Users can update their own
profile" policy: the write is accepted and `full_name` changes. -/
theorem tenantAdmin_self_row_write_allowed :
    (updateUser "a" dbAdmin "a" { full_name := some (some "A2") }).1 =
      Except.ok aRenamed
    ∧ aRenamed.role = Role.tenantAdmin := by
  constructor
  · rfl
  · rfl

/-! ## C8 — product cost/price and stock invariants -/

theorem updateScoped_mem_ck {ρ : Type} {idOf : ρ → Nat} {tenantOf : ρ → String}
    {t : String} {id : Nat} {g : ρ → ρ} {ck : ρ → Bool} {rows : List ρ} {r' : ρ}
    (h : r' ∈ (updateScoped idOf tenantOf t id g ck rows).2) :
    r' ∈ rows ∨ ck r' = true := by
  simp only [updateScoped] at h
  split at h
  case isTrue hall =>
    rcases mem_map_ite h with h1 | ⟨r, hr, hcond, hgr⟩
    · exact Or.inl h1
    · right
      rw [hgr]
      exact List.all_eq_true.mp hall r (List.mem_filter.mpr ⟨hr, hcond⟩)
  case isFalse => exact Or.inl h

theorem updateScoped_abort {ρ : Type} {idOf : ρ → Nat} {tenantOf : ρ → String}
    {t : String} {id : Nat} {g : ρ → ρ} {ck : ρ → Bool} {rows : List ρ} (r0 : ρ)
    (hr0 : r0 ∈ rows) (hid : idOf r0 = id) (ht : tenantOf r0 = t)
    (hbad : ck (g r0) = false) :
    updateScoped idOf tenantOf t id g ck rows = (.error .checkViolation, rows) := by
  simp only [updateScoped]
  rw [if_neg]
  intro hall
  have h1 := List.all_eq_true.mp hall r0
    (List.mem_filter.mpr ⟨hr0, by simp [hid, ht]⟩)
  rw [hbad] at h1
  cases h1

/-- **C8 (amended).** Every successful `ProductService` create or update
leaves only rows satisfying `cost ≤ price` (the store's
`check_cost_less_than_price` constraint): a create or update whose new row
would have `cost > price` fails with the check violation and leaves the
prior rows unchanged.  `stock_quantity ≥ 0` is *not* enforced by the
service or the schema — see the counterexample, where a negative stock is
persisted. -/
theorem product_cost_le_price (auth : Option String) (db : DB) (Y : String)
    (hY : resolveTenant auth db = .ok Y) :
    (∀ pd i n r db', createProduct auth db pd i n = (.ok r, db') →
      r.cost ≤ r.price ∧ db'.products = db.products ++ [r])
    ∧ (∀ pd i n, pd.price < pd.cost →
        createProduct auth db pd i n = (.error .checkViolation, db))
    ∧ (∀ id u r, (updateProduct auth db id u).1 = .ok r → r.cost ≤ r.price)
    ∧ (∀ id u r', r' ∈ (updateProduct auth db id u).2.products →
        r' ∈ db.products ∨ r'.cost ≤ r'.price)
    ∧ (∀ id u r0, r0 ∈ db.products → r0.id = id → r0.tenant_id = Y →
        (applyProductUpdate u r0).price < (applyProductUpdate u r0).cost →
        updateProduct auth db id u = (.error .checkViolation, db)) := by
  refine ⟨?_, ?_, ?_, ?_, ?_⟩
  · intro pd i n r db' hc
    simp only [createProduct, hY] at hc
    split at hc
    case isTrue hck =>
      simp only [Prod.mk.injEq, Except.ok.injEq] at hc
      obtain ⟨h1, h2⟩ := hc
      subst h1
      subst h2
      exact ⟨of_decide_eq_true hck, rfl⟩
    case isFalse => simp at hc
  · intro pd i n hlt
    simp only [createProduct, hY]
    rw [if_neg]
    simp only [productCheck, decide_eq_true_eq]
    exact not_le.mpr hlt
  · intro id u r h
    simp only [updateProduct, hY] at h
    obtain ⟨_, _, _, _, _, hck⟩ := updateScoped_ok h
    exact of_decide_eq_true hck
  · intro id u r' h
    simp only [updateProduct, hY] at h
    rcases updateScoped_mem_ck h with h1 | h1
    · exact Or.inl h1
    · exact Or.inr (of_decide_eq_true h1)
  · intro id u r0 hr0 hid ht hlt
    simp only [updateProduct, hY]
    rw [updateScoped_abort r0 hr0 hid ht
      (by simp only [productCheck, decide_eq_false_iff_not]; exact not_le.mpr hlt)]

theorem product_cost_le_price_witness :
    resolveTenant (some "u") dbSample = Except.ok "T"
    ∧ createProduct (some "u") dbSample
        { name := "W2", price := 10, cost := 12, stock_quantity := 1 } 2 9 =
        (.error .checkViolation, dbSample)
    ∧ (∀ r db', createProduct (some "u") dbSample
        { name := "W2", price := 10, cost := 10, stock_quantity := 1 } 2 9 =
          (.ok r, db') → r.cost ≤ r.price ∧ db'.products = dbSample.products ++ [r]) := by
  refine ⟨rfl, ?_, ?_⟩
  · exact (product_cost_le_price (some "u") dbSample "T" rfl).2.1 _ 2 9 (by norm_num)
  · intro r db' h
    exact (product_cost_le_price (some "u") dbSample "T" rfl).1 _ 2 9 r db' h

/-- The row persisted by `createProduct` for an input with negative
stock. -/
def pNegStock : ProductRow :=
  { id := 2, tenant_id := "T", name := "W3", price := 5, cost := 3,
    stock_quantity := -1, category_id := none, description := none,
    created_at := 9 }

/-- **C8, counterexample.** The claim as frozen also requires
`stock_quantity ≥ 0` after every successful create, with violating
attempts rejected.  On the code, `createProduct` with
`stock_quantity = -1` succeeds (only the UI form checks stock, and the
schema has no check constraint on it) and the stored row carries the
negative stock. -/
theorem negative_stock_persisted :
    (createProduct (some "u") dbSample
      { name := "W3", price := 5, cost := 3, stock_quantity := -1 } 2 9).1 =
      Except.ok pNegStock
    ∧ pNegStock.stock_quantity < 0 := by
  refine ⟨rfl, by decide⟩

/-! ## C9 — tenant max_users default -/

/-- **C9 (amended).** `createTenant` persists `max_users := 10` when the
input leaves `max_users` unset (or gives the falsy `0`); otherwise it
persists exactly the input value, with no `max_users ≥ 1` enforcement
anywhere in the service or the schema — see the counterexample, where a
negative configured maximum is persisted. -/
theorem createTenant_max_users_defaults (auth : Option String) (db : DB)
    (ti : TenantInsert) (newId : String) (now : Nat) :
    ∀ r db', createTenant auth db ti newId now = (.ok r, db') →
      r.max_users = jsOrInt ti.max_users 10
      ∧ (ti.max_users = none → r.max_users = 10)
      ∧ (∀ v, ti.max_users = some v → v ≠ 0 → r.max_users = v)
      ∧ (ti.max_users = some 0 → r.max_users = 10)
      ∧ db'.tenants = db.tenants ++ [r] := by
  intro r db' h
  simp only [createTenant, Prod.mk.injEq, Except.ok.injEq] at h
  obtain ⟨h1, h2⟩ := h
  subst h1
  subst h2
  refine ⟨rfl, ?_, ?_, ?_, rfl⟩
  · intro hn
    simp [jsOrInt, hn]
  · intro v hv hvne
    simp [jsOrInt, hv, hvne]
  · intro h0
    simp [jsOrInt, h0]

/-- The tenant row persisted for an input that leaves `max_users`
unset. -/
def tDefault : TenantRow :=
  { id := "t1", name := "S", address := none, status := "active",
    subscription_plan := "basic", max_users := 10, created_by := none,
    created_at := 0 }

theorem createTenant_max_users_defaults_witness :
    createTenant none dbEmpty { name := "S" } "t1" 0 =
      (Except.ok tDefault, { dbEmpty with tenants := [tDefault] })
    ∧ tDefault.max_users = 10 :=
  ⟨rfl, (createTenant_max_users_defaults none dbEmpty { name := "S" } "t1" 0
    tDefault { dbEmpty with tenants := [tDefault] } rfl).2.1 rfl⟩

/-- A `createTenant` input configuring a negative maximum. -/
def tiNeg : TenantInsert := { name := "shop", max_users := some (-5) }

/-- **C9, counterexample.** The claim as frozen says every persisted
tenant row has `max_users ≥ 1`.  On the code, `max_users || 10` passes
any non-zero value through unchanged and nothing else checks it, so an
input of `-5` persists a tenant with `max_users = -5 < 1`. -/
theorem createTenant_persists_negative_max_users :
    (createTenant none dbEmpty tiNeg "t1" 0).2.tenants.map (·.max_users) = [-5]
    ∧ (-5 : Int) < 1 :=
  ⟨rfl, by decide⟩

/-! ## C10 — listing order -/

/-- **C10 (amended).** `getCategoriesForSelect` simply delegates to
`getAllCategories` with `limit: 100` and therefore returns the caller's
tenant's categories in the same order as every other tenant-scoped
listing: by creation timestamp, descending — *not* by name ascending
(see the counterexample). -/
theorem listing_order (auth : Option String) (db : DB) (Y : String)
    (hY : resolveTenant auth db = .ok Y) :
    getCategoriesForSelect auth db = getAllCategories auth db { limit := some 100 }
    ∧ (∀ rows, getCategoriesForSelect auth db = .ok rows →
        List.Sorted (fun a b => b.created_at ≤ a.created_at) rows)
    ∧ (∀ f rows, getAllCategories auth db f = .ok rows →
        List.Sorted (fun a b => b.created_at ≤ a.created_at) rows)
    ∧ (∀ f rows, getAllCustomers auth db f = .ok rows →
        List.Sorted (fun a b => b.created_at ≤ a.created_at) rows)
    ∧ (∀ f rows, getAllProducts auth db f = .ok rows →
        List.Sorted (fun a b => b.created_at ≤ a.created_at) rows) := by
  have hcat : ∀ f rows, getAllCategories auth db f = .ok rows →
      List.Sorted (fun a b => b.created_at ≤ a.created_at) rows := by
    intro f rows h
    simp only [getAllCategories, hY, Except.ok.injEq] at h
    subst h
    exact tenantQuery_sorted _ _ _ _ _ _ _
  refine ⟨rfl, fun rows h => hcat _ rows h, hcat, ?_, ?_⟩
  · intro f rows h
    simp only [getAllCustomers, hY, Except.ok.injEq] at h
    subst h
    exact tenantQuery_sorted _ _ _ _ _ _ _
  · intro f rows h
    simp only [getAllProducts, hY, Except.ok.injEq] at h
    subst h
    exact tenantQuery_sorted _ _ _ _ _ _ _

theorem listing_order_witness :
    resolveTenant (some "u") dbSample = Except.ok "T"
    ∧ getCategoriesForSelect (some "u") dbSample =
        getAllCategories (some "u") dbSample { limit := some 100 } :=
  ⟨rfl, (listing_order (some "u") dbSample "T" rfl).1⟩

/-- A category created first with name `"A"`. -/
def catA : CategoryRow :=
  { id := 1, tenant_id := "T", name := "A", description := none, created_at := 1 }

/-- A category created later with name `"B"`. -/
def catB : CategoryRow :=
  { id := 2, tenant_id := "T", name := "B", description := none, created_at := 2 }

/-- A store with two categories whose name order disagrees with their
creation order. -/
def dbTwoCats : DB :=
  { user_profiles := [
      { id := "u", email := "u@shop.test", role := .tenantUser,
        tenant_id := some "T", full_name := some "U", status := "active", created_at := 1 }]
    tenants := []
    customers := []
    products := []
    categories := [catA, catB] }

/-- **C10, counterexample.** The claim as frozen says
`getCategoriesForSelect` returns the tenant's categories ordered by name
ascending.  On the code it returns them by creation timestamp descending:
with `catA` (name `"A"`, created first) and `catB` (name `"B"`, created
later) the result is `[catB, catA]`, which is not sorted by name
ascending. -/
theorem categories_select_not_name_ascending :
    getCategoriesForSelect (some "u") dbTwoCats = Except.ok [catB, catA]
    ∧ ¬ List.Sorted (fun a b : CategoryRow => a.name ≤ b.name) [catB, catA] := by
  refine ⟨rfl, ?_⟩
  intro hs
  have h := List.rel_of_sorted_cons hs catA (List.mem_singleton_self catA)
  have hAB : catA.name < catB.name := by
    rw [String.lt_iff_toList_lt]
    decide
  exact absurd h (not_le.mpr hAB)

end ShopTrack
